import Mathlib

/-!
Verification of the Public-Health-Chatbot diagnostic engine (`app.py`).

The file shallowly embeds the four core components of the source:

* the localization cache (`translate_text`, `clear_old_cache`),
* the flow controller (`get_next_question`),
* the symptom normalizer (`map_answers_to_symptoms`),
* the condition matcher (`find_condition_by_symptoms`).

Python dictionaries that preserve insertion order are embedded as
association lists (`List (κ × ν)`), with fresh keys appended at the end,
matching CPython dict iteration order.  The per-domain catalogs
(conversation flows, symptom-token tables, disease/treatment data) are
constructor-built data in the source (or loaded from JSON files outside
the engine); they are passed to the embedded functions as explicit
arguments, and the theorems quantify over them, so they hold in
particular for the concrete tables of the source.
-/

namespace PHChatbot

/-- Outcome of one call to the external translation provider
(`GoogleTranslator(...).translate`): a successful translation, an
exception raised by the provider (caught inside `do_translate`, which
then returns the original text), or a timeout of `future.result(timeout=3)`. -/
inductive ProviderOutcome where
  | success (s : String)
  | failure
  | timeout
deriving DecidableEq, Repr

/-- The global `translation_cache`: a Python dict keyed by
`(text, lang)`, embedded as an insertion-ordered association list. -/
abbrev TranslationCache : Type := List ((String × String) × String)

/-- Result of one `translate_text` call: the returned string, the cache
after the call, and whether the provider was dispatched (`translator_pool.submit`). -/
structure TranslateOutcome where
  result : String
  cache : TranslationCache
  providerCalled : Bool
deriving DecidableEq, Repr

/-- Embedding of `translate_text` (app.py lines 54-79).  The session
language is the explicit `lang` argument; the provider is the explicit
`provider` oracle; the cache is threaded explicitly.

Source behaviour embedded here:
* `if not text: return text` — empty text returned at once, nothing else happens;
* `if lang == "en": return text` — base-language fast path;
* cache hit returns the cached value with no provider call;
* on miss the provider is dispatched; on `success s` the code runs
  `translation_cache[key] = translated` and returns `s`;
* on a provider exception, `do_translate` catches it and returns `text`,
  and the same `translation_cache[key] = translated` line then stores the
  ORIGINAL text under the key before returning it;
* on timeout, `future.result` raises before the store, so the cache is
  unchanged and the original text is returned. -/
def translate_text (provider : String → String → ProviderOutcome)
    (text lang : String) (cache : TranslationCache) : TranslateOutcome :=
  if text = "" then ⟨text, cache, false⟩
  else if lang = "en" then ⟨text, cache, false⟩
  else
    match cache.lookup (text, lang) with
    | some v => ⟨v, cache, false⟩
    | none =>
      match provider text lang with
      | .success s => ⟨s, cache ++ [((text, lang), s)], true⟩
      | .failure => ⟨text, cache ++ [((text, lang), text)], true⟩
      | .timeout => ⟨text, cache, true⟩

/-- Eviction loop body, one iteration:
`if translation_cache: translation_cache.pop(next(iter(translation_cache)))`
removes the oldest (first-inserted) entry when the dict is nonempty. -/
def popOldest : TranslationCache → TranslationCache
  | [] => []
  | _ :: t => t

/-- Repeated eviction loop body, `n` iterations (`for _ in range(n)`). -/
def popOldestN : Nat → TranslationCache → TranslationCache
  | 0, c => c
  | n + 1, c => popOldestN n (popOldest c)

/-- Embedding of the `@app.before_request` hook `clear_old_cache`
(app.py lines 123-129): if the cache holds more than 500 entries, pop
the oldest entry 100 times. -/
def clear_old_cache (cache : TranslationCache) : TranslationCache :=
  if 500 < cache.length then popOldestN 100 cache else cache

/-- Folding `translate_text` over a list of texts at a fixed language,
keeping only the cache: a sequence of translate calls acting on the
global `translation_cache`. -/
def translateAll (provider : String → String → ProviderOutcome)
    (lang : String) (cache : TranslationCache) (texts : List String) : TranslationCache :=
  texts.foldl (fun c t => (translate_text provider t lang c).cache) cache

/-! ## Flow controller (`get_next_question`, app.py lines 682-706) -/

/-- An answer value in the session's answer dict: a single token for
single-choice questions, or a list of tokens for multiple-choice ones. -/
inductive Answer where
  | scalar (s : String)
  | multi (l : List String)
deriving DecidableEq, Repr

/-- A session answer dict (`current_answers`), keyed by question id. -/
abbrev AnswerSet : Type := List (String × Answer)

/-- A question dict of a conversation flow: `id`, `question` text,
`type`, `options` as (value, text) pairs, and the optional `depends_on`
dict of (question id, required value) pairs. -/
structure Question where
  id : String
  question : String
  type : String
  options : List (String × String)
  depends_on : Option (List (String × String)) := none
deriving DecidableEq, Repr

/-- Check of one `depends_on` entry, from the loop body
`if current_answers.get(dep_key) != dep_value`: the dependency is met
exactly when the recorded answer for `dep_key` is the scalar `dep_value`
(an absent key gives Python `None`, a list answer is never equal to a
string — both compare unequal). -/
def depMet (current_answers : AnswerSet) (dep : String × String) : Bool :=
  decide (current_answers.lookup dep.1 = some (Answer.scalar dep.2))

/-- Eligibility of one question in the scan of `get_next_question`:
skipped when its id is already answered, skipped when some `depends_on`
entry is unmet, otherwise returned. -/
def questionEligible (current_answers : AnswerSet) (q : Question) : Bool :=
  if (current_answers.lookup q.id).isSome then false
  else
    match q.depends_on with
    | some deps => deps.all (depMet current_answers)
    | none => true

/-- Embedding of `get_next_question(self, department, current_answers)`.
The hardcoded `self.conversation_flows` dict is the explicit `flows`
argument.  Unknown department returns `none`; otherwise the flow is
scanned in order and the first eligible question is returned (`none`
when the scan exhausts the flow). -/
def get_next_question (flows : List (String × List Question))
    (department : String) (current_answers : AnswerSet) : Option Question :=
  match flows.lookup department with
  | none => none
  | some flow => flow.find? (questionEligible current_answers)

/-! ## Symptom normalizer (`map_answers_to_symptoms`, app.py lines 708-929) -/

/-- A per-domain token → canonical symptom id table. -/
abbrev SymptomTable : Type := List (String × String)

/-- Processing of one raw answer token, from the loop body
`if item and item != 'none' and item in symptom_mapping[department]:`
followed by `if symptom_id not in symptoms: symptoms.append(symptom_id)`.
Empty tokens (Python falsy), the sentinel `"none"`, and tokens absent
from the table contribute nothing; a mapped id is appended only if not
already collected. -/
def addToken (table : SymptomTable) (symptoms : List String) (item : String) : List String :=
  if item ≠ "" ∧ item ≠ "none" then
    match table.lookup item with
    | some symptom_id =>
        if symptom_id ∈ symptoms then symptoms else symptoms ++ [symptom_id]
    | none => symptoms
  else symptoms

/-- Tokens carried by one answer value: a list answer yields its members
in order, a scalar answer is treated as a single-member collection. -/
def answerTokens : Answer → List String
  | .scalar s => [s]
  | .multi l => l

/-- Embedding of `map_answers_to_symptoms(self, department, answers)`.
The inline `symptom_mapping` dict of per-department tables is the
explicit `symptom_mapping` argument (the source builds it as a literal;
`gastro_symptom_map` below reproduces its gastrointestinal table).  A
department absent from the mapping yields the empty list. -/
def map_answers_to_symptoms (symptom_mapping : List (String × SymptomTable))
    (department : String) (answers : AnswerSet) : List String :=
  match symptom_mapping.lookup department with
  | none => []
  | some table =>
      answers.foldl (fun symptoms kv => (answerTokens kv.2).foldl (addToken table) symptoms) []

/-- The gastrointestinal entry of the source's inline `symptom_mapping`
literal (app.py lines 711-741), reproduced for concrete evaluation. -/
def gastro_symptom_map : SymptomTable :=
  [("upper_abdomen", "SYP_001"), ("lower_abdomen", "SYP_007"),
   ("right_side", "SYP_008"), ("left_side", "SYP_009"),
   ("whole_abdomen", "SYP_010"), ("after_meals", "SYP_001"),
   ("empty_stomach", "SYP_004"), ("constant", "SYP_005"),
   ("night_time", "SYP_006"), ("burning", "SYP_011"),
   ("cramping", "SYP_007"), ("sharp", "SYP_008"),
   ("dull", "SYP_005"), ("nausea", "SYP_014"),
   ("vomiting", "SYP_014"), ("bloating", "SYP_025"),
   ("heartburn", "SYP_011"), ("belching", "SYP_026"),
   ("loss_of_appetite", "SYP_027"), ("constipation", "SYP_018"),
   ("diarrhea", "SYP_019"), ("alternating", "SYP_020"),
   ("bloody_stools", "SYP_021"), ("mucus_stools", "SYP_022"),
   ("straining", "SYP_023"), ("urgency", "SYP_024"),
   ("fever", "SYP_028"), ("jaundice", "SYP_029"),
   ("painful_bowel_movement", "SYP_030")]

/-! ## Condition matcher (`find_condition_by_symptoms`, app.py lines 932-970)

Python computes `match_percentage` with float division; the embedding
uses exact rational arithmetic (`ℚ`), which agrees with the float
computation on every comparison the algorithm makes for any realistic
catalog size. -/

/-- A treatment payload value: a single text or a list of text items. -/
inductive TreatmentText where
  | single (s : String)
  | many (l : List String)
deriving DecidableEq, Repr

/-- A per-disease treatment dict, keyed by treatment modality. -/
abbrev Treatments : Type := List (String × TreatmentText)

/-- One entry of a domain's `diseases` list: `disease['id']`,
`disease['name']`, and `disease.get('symptoms', [])` (an absent
`symptoms` key reads as the empty list). -/
structure Disease where
  id : String
  name : String
  symptoms : List String
deriving DecidableEq, Repr

/-- A domain catalog (`dept_data`), as loaded from `data/<dept>.json`:
either key may be missing (`'diseases' in dept_data`,
`'treatments' in dept_data`). -/
structure DeptData where
  diseases : Option (List Disease) := none
  treatments : Option (List (String × Treatments)) := none
deriving DecidableEq, Repr

/-- Distinct elements common to `symptoms` and `diseaseSymptoms`:
the embedding of `set(symptoms) & set(disease_symptoms)`, listed in
first-occurrence order of `symptoms` (Python's set iteration order is
unspecified; only the count and membership of this list matter). -/
def matchingSymptoms (symptoms diseaseSymptoms : List String) : List String :=
  (symptoms.filter (fun s => s ∈ diseaseSymptoms)).dedup

/-- Size of the intersection of the given symptoms with the disease's
required symptoms (`match_count = len(matching_symptoms)`). -/
def matchCount (symptoms : List String) (d : Disease) : Nat :=
  (matchingSymptoms symptoms d.symptoms).length

/-- Embedding of `match_percentage = (match_count / total_possible) * 100
if total_possible > 0 else 0`, with `total_possible = len(disease_symptoms)`. -/
def matchPercentage (symptoms : List String) (d : Disease) : ℚ :=
  if 0 < d.symptoms.length then
    ((matchCount symptoms d : ℚ) / (d.symptoms.length : ℚ)) * 100
  else 0

/-- Admission test of the matcher:
`if match_count >= 2 or (match_count >= 1 and match_percentage >= 30)`. -/
def admitted (symptoms : List String) (d : Disease) : Bool :=
  decide (2 ≤ matchCount symptoms d) ||
    (decide (1 ≤ matchCount symptoms d) && decide ((30 : ℚ) ≤ matchPercentage symptoms d))

/-- The `condition_info` dict appended for an admitted disease. -/
structure MatchResult where
  disease_id : String
  disease_name : String
  match_score : Nat
  match_percentage : ℚ
  matching_symptoms : List String
  total_disease_symptoms : Nat
  symptoms : List String
  treatments : Treatments
deriving DecidableEq, Repr

/-- Construction of the `condition_info` dict for one disease
(`dept_data['treatments'].get(disease['id'], {})` defaults to the empty
dict). -/
def condition_info (symptoms : List String)
    (treatments : List (String × Treatments)) (d : Disease) : MatchResult :=
  { disease_id := d.id
    disease_name := d.name
    match_score := matchCount symptoms d
    match_percentage := matchPercentage symptoms d
    matching_symptoms := matchingSymptoms symptoms d.symptoms
    total_disease_symptoms := d.symptoms.length
    symptoms := d.symptoms
    treatments := (treatments.lookup d.id).getD [] }

/-- Ordering relation of the final
`matched_conditions.sort(key=lambda x: (x['match_score'], x['match_percentage']), reverse=True)`:
`rankGE a b` holds when `a` may precede `b` in the descending output,
i.e. `b`'s key tuple is lexicographically at most `a`'s. -/
def rankGE (a b : MatchResult) : Prop :=
  b.match_score < a.match_score ∨
    (b.match_score = a.match_score ∧ b.match_percentage ≤ a.match_percentage)

instance : DecidableRel rankGE := fun a b =>
  inferInstanceAs (Decidable (b.match_score < a.match_score ∨
    (b.match_score = a.match_score ∧ b.match_percentage ≤ a.match_percentage)))

instance : IsTotal MatchResult rankGE := by
  constructor
  intro a b
  unfold rankGE
  rcases Nat.lt_trichotomy b.match_score a.match_score with h | h | h
  · exact Or.inl (Or.inl h)
  · rcases le_total b.match_percentage a.match_percentage with h2 | h2
    · exact Or.inl (Or.inr ⟨h, h2⟩)
    · exact Or.inr (Or.inr ⟨h.symm, h2⟩)
  · exact Or.inr (Or.inl h)

instance : IsTrans MatchResult rankGE := by
  constructor
  intro a b c hab hbc
  unfold rankGE at *
  rcases hab with h1 | ⟨h1, h1'⟩ <;> rcases hbc with h2 | ⟨h2, h2'⟩
  · exact Or.inl (h2.trans h1)
  · exact Or.inl (h2 ▸ h1)
  · exact Or.inl (h1 ▸ h2)
  · exact Or.inr ⟨h2.trans h1, h2'.trans h1'⟩

/-- Embedding of `find_condition_by_symptoms(self, department, symptoms)`.
The loaded `self.departments_data` dict is the explicit
`departments_data` argument.  Unknown department returns Python `None`
(embedded as `none`); a catalog missing either key skips the loop and
returns the empty list; otherwise admitted diseases are collected in
catalog order and stably sorted descending by
`(match_score, match_percentage)` (CPython's sort is stable, and a
stable sort is uniquely determined by the key order, so insertion sort
is an exact model). -/
def find_condition_by_symptoms (departments_data : List (String × DeptData))
    (department : String) (symptoms : List String) : Option (List MatchResult) :=
  match departments_data.lookup department with
  | none => none
  | some dept_data =>
    match dept_data.diseases, dept_data.treatments with
    | some diseases, some treatments =>
        some (List.insertionSort rankGE
          ((diseases.filter (admitted symptoms)).map (condition_info symptoms treatments)))
    | _, _ => some []

/-! ## Helper lemmas -/

/-- Lookup in an appended association list falls through to the second
list when the key is absent from the first. -/
theorem lookup_append_of_none {α β : Type} [BEq α] (l l' : List (α × β)) (k : α)
    (h : l.lookup k = none) : (l ++ l').lookup k = l'.lookup k := by
  induction l with
  | nil => rfl
  | cons kv t ih =>
    simp only [List.lookup, List.cons_append] at h ⊢
    cases hk : k == kv.1 with
    | true => simp [hk] at h
    | false =>
      simp only [hk] at h ⊢
      exact ih h

/-- A key that has a binding is found by `lookup`. -/
theorem lookup_isSome_of_mem {α β : Type} [BEq α] [LawfulBEq α]
    {l : List (α × β)} {k : α} {v : β} (h : (k, v) ∈ l) : (l.lookup k).isSome := by
  induction l with
  | nil => simp at h
  | cons kv t ih =>
    rcases List.mem_cons.mp h with h | h
    · cases h
      simp [List.lookup]
    · simp only [List.lookup]
      cases hk : k == kv.1
      · exact ih h
      · rfl

/-- Iterating the eviction loop body `n` times drops the `n` oldest
entries (fewer when the cache empties first, matching `List.drop`). -/
theorem popOldestN_eq_drop : ∀ (n : Nat) (c : TranslationCache), popOldestN n c = c.drop n := by
  intro n
  induction n with
  | zero => intro c; rfl
  | succ m ih =>
    intro c
    have h1 : popOldest c = c.drop 1 := by cases c <;> rfl
    calc popOldestN (m + 1) c = popOldestN m (popOldest c) := rfl
      _ = (popOldest c).drop m := ih _
      _ = (c.drop 1).drop m := by rw [h1]
      _ = c.drop (1 + m) := by rw [List.drop_drop]
      _ = c.drop (m + 1) := by rw [Nat.add_comm]

/-! ## C10 — empty-text fast path of `translate_text` -/

/-- C10: for every target language, provider and cache state,
`translate_text` applied to the empty (falsy) text returns it unchanged
immediately: the cache is untouched and the provider is never
dispatched (the `if not text: return text` guard precedes the cache
lookup and the pool submission). -/
theorem C10_empty_text_fast_path (provider : String → String → ProviderOutcome)
    (lang : String) (cache : TranslationCache) :
    translate_text provider "" lang cache = ⟨"", cache, false⟩ := by
  simp [translate_text]

/-! ## C2 — behaviour of `translate_text` on provider failure/timeout -/

/-- C2 counterexample: with a provider that raises (outcome `failure`),
`translate_text "hello" "es"` on an empty cache does store an entry for
the key `("hello", "es")` — the original text — and the subsequent call
for the same key is served from the cache without dispatching the
provider.  This refutes the claim that a provider failure leaves no
cache entry and that a subsequent call re-attempts the provider. -/
theorem C2_counterexample :
    translate_text (fun _ _ => ProviderOutcome.failure) "hello" "es" []
      = ⟨"hello", [(("hello", "es"), "hello")], true⟩ ∧
    translate_text (fun _ _ => ProviderOutcome.failure) "hello" "es"
        [(("hello", "es"), "hello")]
      = ⟨"hello", [(("hello", "es"), "hello")], false⟩ := by
  exact ⟨rfl, rfl⟩

/-- C2 amended: on a cache miss for nonempty text in a non-base
language, a provider timeout returns the original text and leaves the
cache unchanged (so a later call re-attempts the provider), while a
provider exception returns the original text but stores the original
text under the key, and the subsequent call for the same key returns
that cached original without dispatching the provider. -/
theorem C2_fail_open_behaviour (text lang : String) (cache : TranslationCache)
    (ht : text ≠ "") (hl : lang ≠ "en") (hc : cache.lookup (text, lang) = none) :
    translate_text (fun _ _ => ProviderOutcome.timeout) text lang cache
      = ⟨text, cache, true⟩ ∧
    translate_text (fun _ _ => ProviderOutcome.failure) text lang cache
      = ⟨text, cache ++ [((text, lang), text)], true⟩ ∧
    translate_text (fun _ _ => ProviderOutcome.failure) text lang
        (cache ++ [((text, lang), text)])
      = ⟨text, cache ++ [((text, lang), text)], false⟩ := by
  have hlast : (cache ++ [((text, lang), text)]).lookup (text, lang) = some text := by
    rw [lookup_append_of_none _ _ _ hc]
    simp [List.lookup]
  refine ⟨?_, ?_, ?_⟩ <;> simp [translate_text, ht, hl, hc, hlast]

/-- C2 witness: the amended behaviour at a concrete key and empty cache. -/
theorem C2_fail_open_behaviour_witness :
    ("hello" ≠ "" ∧ "es" ≠ "en" ∧
      (([] : TranslationCache).lookup ("hello", "es") = none)) ∧
    (translate_text (fun _ _ => ProviderOutcome.timeout) "hello" "es" []
        = ⟨"hello", [], true⟩ ∧
      translate_text (fun _ _ => ProviderOutcome.failure) "hello" "es" []
        = ⟨"hello", [] ++ [(("hello", "es"), "hello")], true⟩ ∧
      translate_text (fun _ _ => ProviderOutcome.failure) "hello" "es"
          ([] ++ [(("hello", "es"), "hello")])
        = ⟨"hello", [] ++ [(("hello", "es"), "hello")], false⟩) :=
  ⟨⟨by decide, by decide, rfl⟩,
    C2_fail_open_behaviour "hello" "es" [] (by decide) (by decide) rfl⟩

/-! ## C3 — matcher result on unknown domain / missing catalog keys -/

/-- C3 counterexample: for a domain absent from `departments_data`,
`find_condition_by_symptoms` returns Python `None` (embedded `none`),
not the empty sequence the claim requires. -/
theorem C3_counterexample :
    find_condition_by_symptoms [] "cardiology" ["SYP_001"] = none := rfl

/-- C3 amended: an unknown domain returns `None`, while a known domain
whose catalog is missing the disease list or the treatment table
returns the empty sequence. -/
theorem C3_unknown_domain_behaviour (departments_data : List (String × DeptData))
    (department : String) (symptoms : List String) :
    (departments_data.lookup department = none →
      find_condition_by_symptoms departments_data department symptoms = none) ∧
    (∀ dd, departments_data.lookup department = some dd →
      dd.diseases = none ∨ dd.treatments = none →
      find_condition_by_symptoms departments_data department symptoms = some []) := by
  constructor
  · intro h
    simp [find_condition_by_symptoms, h]
  · intro dd hdd hmiss
    rcases hmiss with h | h
    · cases htr : dd.treatments <;> simp [find_condition_by_symptoms, hdd, h, htr]
    · cases hdi : dd.diseases <;> simp [find_condition_by_symptoms, hdd, h, hdi]

/-- C3 witness: the amended behaviour at a concrete catalog, both for an
unknown department and for a department with an empty catalog file. -/
theorem C3_unknown_domain_behaviour_witness :
    (([("gastrointestinal", (⟨none, none⟩ : DeptData))].lookup "cardiology"
        = (none : Option DeptData)) ∧
      find_condition_by_symptoms [("gastrointestinal", ⟨none, none⟩)] "cardiology" ["SYP_001"]
        = none) ∧
    (([("gastrointestinal", (⟨none, none⟩ : DeptData))].lookup "gastrointestinal"
        = some (⟨none, none⟩ : DeptData)) ∧
      find_condition_by_symptoms [("gastrointestinal", ⟨none, none⟩)] "gastrointestinal" ["SYP_001"]
        = some []) :=
  ⟨⟨rfl, (C3_unknown_domain_behaviour [("gastrointestinal", ⟨none, none⟩)] "cardiology"
      ["SYP_001"]).1 rfl⟩,
    ⟨rfl, (C3_unknown_domain_behaviour [("gastrointestinal", ⟨none, none⟩)] "gastrointestinal"
      ["SYP_001"]).2 ⟨none, none⟩ rfl (Or.inl rfl)⟩⟩

/-! ## Sample flow data (first two gastrointestinal questions, app.py lines 156-182) -/

/-- The `symptom_location` question of the gastrointestinal flow. -/
def symptom_location_question : Question :=
  { id := "symptom_location"
    question := "Where is your abdominal discomfort primarily located?"
    type := "single_choice"
    options := [("upper_abdomen", "Upper Abdomen (below chest)"),
      ("lower_abdomen", "Lower Abdomen (below belly button)"),
      ("whole_abdomen", "Whole Abdomen"), ("right_side", "Right Side"),
      ("left_side", "Left Side"), ("none", "No specific location")] }

/-- The `upper_abdomen_timing` question of the gastrointestinal flow,
the one question of the source carrying a `depends_on` dict. -/
def upper_abdomen_timing_question : Question :=
  { id := "upper_abdomen_timing"
    question := "When does your upper abdominal pain occur?"
    type := "single_choice"
    options := [("after_meals", "After Eating"), ("empty_stomach", "On Empty Stomach"),
      ("constant", "Constant Pain"), ("night_time", "At Night"),
      ("none", "No specific timing")]
    depends_on := some [("symptom_location", "upper_abdomen")] }

/-- Fragment of the gastrointestinal conversation flow: its first two
questions in source order. -/
def gastro_flow_fragment : List Question :=
  [symptom_location_question, upper_abdomen_timing_question]

/-! ## C7 — unknown domain in the flow controller and the normalizer -/

/-- C7 counterexample: for a department absent from the catalogs,
`get_next_question` returns `None` and `map_answers_to_symptoms` returns
the empty list; neither signals an `UnknownDomain` error (the embedded
functions are total and have no error outcome), refuting the claim that
an unknown domain is surfaced as a rejected request rather than a
silent none/empty result. -/
theorem C7_counterexample :
    get_next_question [("gastrointestinal", gastro_flow_fragment)] "cardiology" [] = none ∧
    map_answers_to_symptoms [("gastrointestinal", gastro_symptom_map)] "cardiology" [] = [] :=
  ⟨rfl, rfl⟩

/-- C7 amended: for a domain absent from the catalogs, `get_next_question`
silently returns `None` and `map_answers_to_symptoms` silently returns
the empty symptom list; no error is signalled by either function. -/
theorem C7_unknown_domain_silent (flows : List (String × List Question))
    (symptom_mapping : List (String × SymptomTable)) (department : String)
    (answers : AnswerSet) :
    (flows.lookup department = none →
      get_next_question flows department answers = none) ∧
    (symptom_mapping.lookup department = none →
      map_answers_to_symptoms symptom_mapping department answers = []) := by
  constructor
  · intro h
    simp [get_next_question, h]
  · intro h
    simp [map_answers_to_symptoms, h]

/-- C7 witness: the amended behaviour at the concrete catalogs and an
unknown department. -/
theorem C7_unknown_domain_silent_witness :
    (([("gastrointestinal", gastro_flow_fragment)].lookup "cardiology"
        = (none : Option (List Question))) ∧
      get_next_question [("gastrointestinal", gastro_flow_fragment)] "cardiology"
        [("symptom_location", Answer.scalar "burning")] = none) ∧
    (([("gastrointestinal", gastro_symptom_map)].lookup "cardiology"
        = (none : Option SymptomTable)) ∧
      map_answers_to_symptoms [("gastrointestinal", gastro_symptom_map)] "cardiology"
        [("symptom_location", Answer.scalar "burning")] = []) :=
  ⟨⟨rfl, (C7_unknown_domain_silent [("gastrointestinal", gastro_flow_fragment)]
      [("gastrointestinal", gastro_symptom_map)] "cardiology"
      [("symptom_location", Answer.scalar "burning")]).1 rfl⟩,
    ⟨rfl, (C7_unknown_domain_silent [("gastrointestinal", gastro_flow_fragment)]
      [("gastrointestinal", gastro_symptom_map)] "cardiology"
      [("symptom_location", Answer.scalar "burning")]).2 rfl⟩⟩

/-! ## C8 — cache capacity and eviction -/

/-- Growth of the cache under translate calls with fresh keys: with an
always-successful provider, translating a list of distinct, nonempty,
previously uncached texts at language `"es"` grows the cache by exactly
one entry per text — `translate_text` itself performs no eviction. -/
theorem length_translateAll_fresh :
    ∀ (texts : List String) (cache : TranslationCache),
      texts.Nodup → (∀ t ∈ texts, t ≠ "") →
      (∀ t ∈ texts, cache.lookup (t, "es") = none) →
      (translateAll (fun _ _ => ProviderOutcome.success "X") "es" cache texts).length
        = cache.length + texts.length := by
  intro texts
  induction texts with
  | nil => intro cache _ _ _; simp [translateAll]
  | cons t ts ih =>
    intro cache hnodup hne hfresh
    have hstep : translate_text (fun _ _ => ProviderOutcome.success "X") t "es" cache
        = ⟨"X", cache ++ [((t, "es"), "X")], true⟩ := by
      have h1 : t ≠ "" := hne t (List.mem_cons_self t ts)
      have h2 : cache.lookup (t, "es") = none := hfresh t (List.mem_cons_self t ts)
      simp [translate_text, h1, h2]
    have hall : translateAll (fun _ _ => ProviderOutcome.success "X") "es" cache (t :: ts)
        = translateAll (fun _ _ => ProviderOutcome.success "X") "es"
            (cache ++ [((t, "es"), "X")]) ts := by
      simp [translateAll, hstep]
    rw [hall]
    have htnotmem : t ∉ ts := (List.nodup_cons.mp hnodup).1
    have hfresh' : ∀ u ∈ ts, (cache ++ [((t, "es"), "X")]).lookup (u, "es") = none := by
      intro u hu
      rw [lookup_append_of_none _ _ _ (hfresh u (List.mem_cons_of_mem t hu))]
      have hut : u ≠ t := fun h => htnotmem (h ▸ hu)
      have hbeq : ((u, "es") == (t, "es")) = false := by simp [hut]
      simp [List.lookup, hbeq]
    rw [ih (cache ++ [((t, "es"), "X")]) (List.nodup_cons.mp hnodup).2
      (fun u hu => hne u (List.mem_cons_of_mem t hu)) hfresh']
    simp [Nat.add_assoc, Nat.add_comm 1 ts.length]

/-- C8 counterexample: a sequence of successful translate calls for 501
distinct keys leaves the translation cache with 501 entries — more than
the claimed 500-entry bound.  `translate_text` never evicts; the
eviction in `clear_old_cache` runs only as a before-request hook, so
the size bound in the claim does not hold over translate calls. -/
theorem C8_counterexample :
    500 < (translateAll (fun _ _ => ProviderOutcome.success "X") "es" []
      ((List.range 501).map (fun k => String.mk (List.replicate (k + 1) 'a')))).length := by
  have hinj : Function.Injective (fun k => String.mk (List.replicate (k + 1) 'a')) := by
    intro a b h
    have h2 : List.replicate (a + 1) 'a' = List.replicate (b + 1) 'a' := by
      have := congrArg String.data h
      simpa using this
    have h3 := congrArg List.length h2
    simpa using h3
  have hnodup : ((List.range 501).map (fun k => String.mk (List.replicate (k + 1) 'a'))).Nodup :=
    (List.nodup_range 501).map hinj
  have hne : ∀ t ∈ (List.range 501).map (fun k => String.mk (List.replicate (k + 1) 'a')),
      t ≠ "" := by
    intro t ht
    simp only [List.mem_map] at ht
    obtain ⟨k, _, rfl⟩ := ht
    intro h
    have h2 := congrArg String.data h
    simp [List.replicate] at h2
  have hfresh : ∀ t ∈ (List.range 501).map (fun k => String.mk (List.replicate (k + 1) 'a')),
      ([] : TranslationCache).lookup (t, "es") = none := fun _ _ => rfl
  rw [length_translateAll_fresh _ [] hnodup hne hfresh]
  rw [List.length_map, List.length_range]
  omega

/-- C8 amended: `translate_text` itself never evicts, so a sequence of
translate calls can grow the cache past 500 entries; the capacity policy
lives in the per-request hook `clear_old_cache`, which, when the cache
holds more than 500 entries, removes exactly the 100 oldest entries in
insertion order (one batch of 100 per run, not a hard 500 bound). -/
theorem C8_eviction_behaviour (cache : TranslationCache) (h : 500 < cache.length) :
    clear_old_cache cache = cache.drop 100 := by
  simp [clear_old_cache, h, popOldestN_eq_drop]

/-- C8 witness: the eviction hook at a concrete 501-entry cache. -/
theorem C8_eviction_behaviour_witness :
    500 < (List.replicate 501 ((("a", "es"), "a")) : TranslationCache).length ∧
    clear_old_cache (List.replicate 501 ((("a", "es"), "a")))
      = (List.replicate 501 ((("a", "es"), "a")) : TranslationCache).drop 100 :=
  ⟨by rw [List.length_replicate]; omega,
    C8_eviction_behaviour _ (by rw [List.length_replicate]; omega)⟩

/-! ## C6 — the controller never repeats an answered question -/

/-- A key with no binding in an association list is impossible when
`lookup` reports `none`. -/
theorem not_mem_of_lookup_none {α β : Type} [BEq α] [LawfulBEq α]
    {l : List (α × β)} {k : α} (h : l.lookup k = none) (v : β) : (k, v) ∉ l := by
  intro hmem
  have := lookup_isSome_of_mem hmem
  rw [h] at this
  simp at this

/-- C6: whenever `get_next_question` returns a question `q`, the id of
`q` has no binding in `current_answers` — for every key `k` already
present in the answer set, the returned question's id differs from `k`
(the `if question['id'] in current_answers: continue` guard). -/
theorem C6_no_repeat_questions (flows : List (String × List Question))
    (department : String) (current_answers : AnswerSet) (q : Question)
    (h : get_next_question flows department current_answers = some q) :
    current_answers.lookup q.id = none ∧ ∀ v : Answer, (q.id, v) ∉ current_answers := by
  have hlu : current_answers.lookup q.id = none := by
    unfold get_next_question at h
    cases hflow : flows.lookup department with
    | none => rw [hflow] at h; simp at h
    | some flow =>
      rw [hflow] at h
      have helig := List.find?_some h
      unfold questionEligible at helig
      by_cases hsome : (current_answers.lookup q.id).isSome
      · simp [hsome] at helig
      · exact Option.not_isSome_iff_eq_none.mp hsome
  exact ⟨hlu, fun v => not_mem_of_lookup_none hlu v⟩

/-- C6 witness: with the first gastrointestinal question already
answered, the controller returns the dependent second question, whose
id is not a key of the answer set. -/
theorem C6_no_repeat_questions_witness :
    get_next_question [("gastrointestinal", gastro_flow_fragment)] "gastrointestinal"
        [("symptom_location", Answer.scalar "upper_abdomen")]
      = some upper_abdomen_timing_question ∧
    ([("symptom_location", Answer.scalar "upper_abdomen")] : AnswerSet).lookup
        upper_abdomen_timing_question.id = none ∧
    (upper_abdomen_timing_question.id, Answer.scalar "upper_abdomen")
      ∉ ([("symptom_location", Answer.scalar "upper_abdomen")] : AnswerSet) :=
  ⟨by decide,
    (C6_no_repeat_questions [("gastrointestinal", gastro_flow_fragment)] "gastrointestinal"
      [("symptom_location", Answer.scalar "upper_abdomen")] upper_abdomen_timing_question
      (by decide)).1,
    (C6_no_repeat_questions [("gastrointestinal", gastro_flow_fragment)] "gastrointestinal"
      [("symptom_location", Answer.scalar "upper_abdomen")] upper_abdomen_timing_question
      (by decide)).2 (Answer.scalar "upper_abdomen")⟩

/-! ## C5 — dependency gating in the flow controller -/

/-- C5: a question carrying a `depends_on` conjunction is returned only
when every (question id, required value) pair has a recorded answer equal
to the required scalar value; and a question disqualified by its
dependencies is skipped, the scan continuing with the later questions of
the flow. -/
theorem C5_dependency_gating (flows : List (String × List Question))
    (department : String) (current_answers : AnswerSet) :
    (∀ q deps, get_next_question flows department current_answers = some q →
      q.depends_on = some deps → deps.all (depMet current_answers) = true) ∧
    (∀ q rest deps, flows.lookup department = some (q :: rest) →
      q.depends_on = some deps → deps.all (depMet current_answers) = false →
      get_next_question flows department current_answers
        = rest.find? (questionEligible current_answers)) := by
  constructor
  · intro q deps h hdep
    unfold get_next_question at h
    cases hflow : flows.lookup department with
    | none => rw [hflow] at h; simp at h
    | some flow =>
      rw [hflow] at h
      have helig := List.find?_some h
      unfold questionEligible at helig
      rw [hdep] at helig
      by_cases hsome : (current_answers.lookup q.id).isSome
      · simp [hsome] at helig
      · simpa [hsome] using helig
  · intro q rest deps hflow hdep hunmet
    have hq : questionEligible current_answers q = false := by
      unfold questionEligible
      rw [hdep]
      by_cases hsome : (current_answers.lookup q.id).isSome
      · simp [hsome]
      · simpa [hsome] using hunmet
    unfold get_next_question
    rw [hflow]
    simp [List.find?, hq]

/-- C5 witness: with `symptom_location` answered `"upper_abdomen"` the
dependent timing question is returned and its one dependency is met;
with it answered `"lower_abdomen"` the dependent question (placed first
in a one-question flow) is skipped and the scan continues with the empty
remainder. -/
theorem C5_dependency_gating_witness :
    (get_next_question [("gastrointestinal", gastro_flow_fragment)] "gastrointestinal"
        [("symptom_location", Answer.scalar "upper_abdomen")]
      = some upper_abdomen_timing_question ∧
      [("symptom_location", "upper_abdomen")].all
        (depMet [("symptom_location", Answer.scalar "upper_abdomen")]) = true) ∧
    get_next_question [("d", [upper_abdomen_timing_question])] "d"
        [("symptom_location", Answer.scalar "lower_abdomen")]
      = List.find? (questionEligible [("symptom_location", Answer.scalar "lower_abdomen")]) [] :=
  ⟨⟨by decide,
    (C5_dependency_gating [("gastrointestinal", gastro_flow_fragment)] "gastrointestinal"
      [("symptom_location", Answer.scalar "upper_abdomen")]).1
      upper_abdomen_timing_question [("symptom_location", "upper_abdomen")] (by decide) rfl⟩,
    (C5_dependency_gating [("d", [upper_abdomen_timing_question])] "d"
      [("symptom_location", Answer.scalar "lower_abdomen")]).2
      upper_abdomen_timing_question [] [("symptom_location", "upper_abdomen")] rfl rfl
      (by decide)⟩

/-! ## C9 — the sentinel "none" contributes no symptom -/

/-- Scrubbing an answer value: its tokens with every `"none"` sentinel
removed (a scalar is treated as a one-member collection, so a scalar
`"none"` scrubs to an empty collection). -/
def scrubAnswer (a : Answer) : Answer :=
  Answer.multi ((answerTokens a).filter (fun t => decide (t ≠ "none")))

/-- Token-level fold ignores `"none"` sentinels. -/
theorem foldl_addToken_filter_none (table : SymptomTable) :
    ∀ (tokens : List String) (symptoms : List String),
      tokens.foldl (addToken table) symptoms
        = (tokens.filter (fun t => decide (t ≠ "none"))).foldl (addToken table) symptoms := by
  intro tokens
  induction tokens with
  | nil => intro s; rfl
  | cons t ts ih =>
    intro s
    by_cases ht : t = "none"
    · subst ht
      have hskip : addToken table s "none" = s := by simp [addToken]
      simp [List.filter, List.foldl, hskip, ih]
    · simp [List.filter, List.foldl, ht, ih]

/-- C9: an answer token equal to the sentinel `"none"` contributes no
symptom id to the result of `map_answers_to_symptoms`: removing every
`"none"` token from the answer set (whether a scalar value or a member
of a multiple-choice list, and however many times it occurs) leaves the
resulting symptom list unchanged. -/
theorem C9_none_contributes_nothing (symptom_mapping : List (String × SymptomTable))
    (department : String) (answers : AnswerSet) :
    map_answers_to_symptoms symptom_mapping department answers
      = map_answers_to_symptoms symptom_mapping department
          (answers.map (fun kv => (kv.1, scrubAnswer kv.2))) := by
  unfold map_answers_to_symptoms
  cases htab : symptom_mapping.lookup department with
  | none => rfl
  | some table =>
    suffices h : ∀ (l : AnswerSet) (s : List String),
        l.foldl (fun symptoms kv => (answerTokens kv.2).foldl (addToken table) symptoms) s
          = (l.map (fun kv => (kv.1, scrubAnswer kv.2))).foldl
              (fun symptoms kv => (answerTokens kv.2).foldl (addToken table) symptoms) s by
      exact h answers []
    intro l
    induction l with
    | nil => intro s; rfl
    | cons kv rest ih =>
      intro s
      have hentry : (answerTokens kv.2).foldl (addToken table) s
          = (answerTokens (scrubAnswer kv.2)).foldl (addToken table) s := by
        rw [foldl_addToken_filter_none table (answerTokens kv.2) s]
        rfl
      simp only [List.map, List.foldl]
      rw [← hentry, ih]

/-! ## C1 — admission policy of the matcher -/

/-- Unfolding of the admission test into the two-branch threshold. -/
theorem admit_eq_true_iff (symptoms : List String) (d : Disease) :
    admitted symptoms d = true ↔
      2 ≤ matchCount symptoms d ∨
        (1 ≤ matchCount symptoms d ∧ (30 : ℚ) ≤ matchPercentage symptoms d) := by
  simp [admitted]

/-- Reduction of `find_condition_by_symptoms` on a complete catalog. -/
theorem find_condition_eq (departments_data : List (String × DeptData))
    (department : String) (symptoms : List String) {dept_data : DeptData}
    {diseases : List Disease} {treatments : List (String × Treatments)}
    (h1 : departments_data.lookup department = some dept_data)
    (h2 : dept_data.diseases = some diseases)
    (h3 : dept_data.treatments = some treatments) :
    find_condition_by_symptoms departments_data department symptoms
      = some (List.insertionSort rankGE
          ((diseases.filter (admitted symptoms)).map (condition_info symptoms treatments))) := by
  unfold find_condition_by_symptoms
  rw [h1]
  simp only [h2, h3]

/-- C1: a condition of a complete domain catalog appears in the match
result exactly when its match count is at least 2, or its match count is
at least 1 and its match percentage is at least 30. -/
theorem C1_admission_policy (departments_data : List (String × DeptData))
    (department : String) (symptoms : List String) (dept_data : DeptData)
    (diseases : List Disease) (treatments : List (String × Treatments))
    (result : List MatchResult)
    (h1 : departments_data.lookup department = some dept_data)
    (h2 : dept_data.diseases = some diseases)
    (h3 : dept_data.treatments = some treatments)
    (h4 : find_condition_by_symptoms departments_data department symptoms = some result)
    (d : Disease) (hd : d ∈ diseases) :
    condition_info symptoms treatments d ∈ result ↔
      2 ≤ matchCount symptoms d ∨
        (1 ≤ matchCount symptoms d ∧ (30 : ℚ) ≤ matchPercentage symptoms d) := by
  have hres : result = List.insertionSort rankGE
      ((diseases.filter (admitted symptoms)).map (condition_info symptoms treatments)) := by
    rw [find_condition_eq departments_data department symptoms h1 h2 h3] at h4
    exact (Option.some.inj h4).symm
  subst hres
  rw [(List.perm_insertionSort rankGE _).mem_iff]
  constructor
  · intro hmem
    rcases List.mem_map.mp hmem with ⟨d', hd', heq⟩
    rcases List.mem_filter.mp hd' with ⟨_, hadm⟩
    have hs : matchCount symptoms d' = matchCount symptoms d :=
      congrArg MatchResult.match_score heq
    have hp : matchPercentage symptoms d' = matchPercentage symptoms d :=
      congrArg MatchResult.match_percentage heq
    have hcrit := (admit_eq_true_iff symptoms d').mp hadm
    rw [hs, hp] at hcrit
    exact hcrit
  · intro hcrit
    exact List.mem_map.mpr
      ⟨d, List.mem_filter.mpr ⟨hd, (admit_eq_true_iff symptoms d).mpr hcrit⟩, rfl⟩

/-- Disease with five required symptoms, of which the witness symptom
set matches one (20% — excluded by the threshold). -/
def diseaseA : Disease := ⟨"D1", "Condition One", ["s1", "s2", "s3", "s4", "s5"]⟩

/-- Disease with three required symptoms, of which the witness symptom
set matches one (33% — admitted by the percentage branch). -/
def diseaseB : Disease := ⟨"D2", "Condition Two", ["s1", "t2", "t3"]⟩

/-- Evaluation of the admission test on the one-of-five disease: one
matched symptom at 20% fails both branches. -/
theorem admit_diseaseA_eval : admitted ["s1"] diseaseA = false := by
  have h1 : matchCount ["s1"] diseaseA = 1 := rfl
  have hlen : diseaseA.symptoms.length = 5 := rfl
  have h2 : ¬ (30 : ℚ) ≤ matchPercentage ["s1"] diseaseA := by
    rw [matchPercentage, h1, hlen]
    norm_num
  simp [admitted, h1, h2]

/-- Evaluation of the admission test on the one-of-three disease: one
matched symptom at 33% passes the percentage branch. -/
theorem admit_diseaseB_eval : admitted ["s1"] diseaseB = true := by
  have h1 : matchCount ["s1"] diseaseB = 1 := rfl
  have hlen : diseaseB.symptoms.length = 3 := rfl
  have h2 : (30 : ℚ) ≤ matchPercentage ["s1"] diseaseB := by
    rw [matchPercentage, h1, hlen]
    norm_num
  simp [admitted, h1, h2]

/-- Evaluation of the matcher on the two-disease witness catalog. -/
theorem find_condition_witness_eval :
    find_condition_by_symptoms [("gastrointestinal", ⟨some [diseaseA, diseaseB], some []⟩)]
      "gastrointestinal" ["s1"] = some [condition_info ["s1"] [] diseaseB] := by
  rw [find_condition_eq [("gastrointestinal", ⟨some [diseaseA, diseaseB], some []⟩)]
    "gastrointestinal" ["s1"] rfl rfl rfl]
  simp [List.filter_cons, admit_diseaseA_eval, admit_diseaseB_eval,
    List.insertionSort, List.orderedInsert]

/-- C1 witness: on a concrete catalog, the one-of-three disease is in
the result (33% ≥ 30) and satisfies the admission property. -/
theorem C1_admission_policy_witness :
    (([("gastrointestinal", (⟨some [diseaseA, diseaseB], some []⟩ : DeptData))].lookup
        "gastrointestinal" = some (⟨some [diseaseA, diseaseB], some []⟩ : DeptData)) ∧
      find_condition_by_symptoms [("gastrointestinal", ⟨some [diseaseA, diseaseB], some []⟩)]
        "gastrointestinal" ["s1"] = some [condition_info ["s1"] [] diseaseB] ∧
      diseaseB ∈ [diseaseA, diseaseB]) ∧
    (condition_info ["s1"] [] diseaseB ∈ [condition_info ["s1"] [] diseaseB] ↔
      2 ≤ matchCount ["s1"] diseaseB ∨
        (1 ≤ matchCount ["s1"] diseaseB ∧ (30 : ℚ) ≤ matchPercentage ["s1"] diseaseB)) :=
  ⟨⟨rfl, find_condition_witness_eval, by simp⟩,
    C1_admission_policy [("gastrointestinal", ⟨some [diseaseA, diseaseB], some []⟩)]
      "gastrointestinal" ["s1"] ⟨some [diseaseA, diseaseB], some []⟩ [diseaseA, diseaseB] []
      [condition_info ["s1"] [] diseaseB] rfl rfl rfl find_condition_witness_eval
      diseaseB (by simp)⟩

/-! ## C4 — descending stable ranking of the matcher -/

/-- Results with different sort keys are comparable only one way: when
`rankGE a b` fails, the two key tuples differ. -/
theorem key_ne_of_not_rankGE {a b : MatchResult} (h : ¬ rankGE a b) :
    (a.match_score, a.match_percentage) ≠ (b.match_score, b.match_percentage) := by
  intro heq
  apply h
  have h1 : a.match_score = b.match_score := congrArg Prod.fst heq
  have h2 : a.match_percentage = b.match_percentage := congrArg Prod.snd heq
  exact Or.inr ⟨h1.symm, le_of_eq h2.symm⟩

/-- Inserting an element into a sorted-so-far list commutes with
restriction to one sort-key class: the elements skipped by
`orderedInsert` have strictly greater keys, so within a key class the
inserted element lands in front and nothing is reordered. -/
theorem filter_orderedInsert_key (k : Nat × ℚ) (a : MatchResult) :
    ∀ l : List MatchResult,
      (List.orderedInsert rankGE a l).filter
          (fun r => decide ((r.match_score, r.match_percentage) = k))
        = (a :: l).filter (fun r => decide ((r.match_score, r.match_percentage) = k)) := by
  intro l
  induction l with
  | nil => rfl
  | cons b t ih =>
    by_cases hab : rankGE a b
    · simp [List.orderedInsert, hab]
    · have hne := key_ne_of_not_rankGE hab
      simp only [List.orderedInsert, if_neg hab]
      by_cases hpa : (a.match_score, a.match_percentage) = k
      · have hpb : ¬ (b.match_score, b.match_percentage) = k := fun hb =>
          hne (hpa.trans hb.symm)
        simp [List.filter_cons, hpa, hpb, ih]
      · simp [List.filter_cons, hpa, ih]

/-- Stability of the embedded sort: restricting the sorted output to one
sort-key class gives exactly the same sequence as restricting the input
— tied results keep their input (catalog) order. -/
theorem filter_insertionSort_key (k : Nat × ℚ) :
    ∀ l : List MatchResult,
      (List.insertionSort rankGE l).filter
          (fun r => decide ((r.match_score, r.match_percentage) = k))
        = l.filter (fun r => decide ((r.match_score, r.match_percentage) = k)) := by
  intro l
  induction l with
  | nil => rfl
  | cons a t ih =>
    rw [List.insertionSort, filter_orderedInsert_key k a (List.insertionSort rankGE t)]
    simp [List.filter_cons, ih]

/-- C4: the match result is sorted descending by the composite key
`(match_score, match_percentage)` (match count primary, percentage
breaking ties), and results tied on both keys appear in the same
relative order as the admitted conditions of the catalog (the sort is
stable over the catalog-ordered admitted list). -/
theorem C4_ranking_stable (departments_data : List (String × DeptData))
    (department : String) (symptoms : List String) (dept_data : DeptData)
    (diseases : List Disease) (treatments : List (String × Treatments))
    (result : List MatchResult)
    (h1 : departments_data.lookup department = some dept_data)
    (h2 : dept_data.diseases = some diseases)
    (h3 : dept_data.treatments = some treatments)
    (h4 : find_condition_by_symptoms departments_data department symptoms = some result) :
    result.Pairwise rankGE ∧
    ∀ k : Nat × ℚ,
      result.filter (fun r => decide ((r.match_score, r.match_percentage) = k))
        = ((diseases.filter (admitted symptoms)).map (condition_info symptoms treatments)).filter
            (fun r => decide ((r.match_score, r.match_percentage) = k)) := by
  have hres : result = List.insertionSort rankGE
      ((diseases.filter (admitted symptoms)).map (condition_info symptoms treatments)) := by
    rw [find_condition_eq departments_data department symptoms h1 h2 h3] at h4
    exact (Option.some.inj h4).symm
  subst hres
  exact ⟨List.sorted_insertionSort rankGE _, fun k => filter_insertionSort_key k _⟩

/-- Disease tied with `diseaseTieTwo` on `(1, 50©)`, listed first in the
witness catalog. -/
def diseaseTieOne : Disease := ⟨"T1", "Tie One", ["s1", "x1"]⟩

/-- Disease tied with `diseaseTieOne` on the sort key, listed second. -/
def diseaseTieTwo : Disease := ⟨"T2", "Tie Two", ["s1", "x2"]⟩

/-- Disease matching both witness symptoms, ranked first. -/
def diseaseTop : Disease := ⟨"TOP", "Top", ["s1", "s2"]⟩

/-- Evaluation of the matcher on the three-disease ranking catalog: the
two-symptom disease ranks first; the two ties keep catalog order. -/
theorem find_condition_ranking_eval :
    find_condition_by_symptoms
      [("gastrointestinal",
        (⟨some [diseaseTieOne, diseaseTieTwo, diseaseTop], some []⟩ : DeptData))]
      "gastrointestinal" ["s1", "s2"]
      = some [condition_info ["s1", "s2"] [] diseaseTop,
          condition_info ["s1", "s2"] [] diseaseTieOne,
          condition_info ["s1", "s2"] [] diseaseTieTwo] := by
  rw [find_condition_eq
    [("gastrointestinal", ⟨some [diseaseTieOne, diseaseTieTwo, diseaseTop], some []⟩)]
    "gastrointestinal" ["s1", "s2"] rfl rfl rfl]
  have h1 : admitted ["s1", "s2"] diseaseTieOne = true := by
    have hc : matchCount ["s1", "s2"] diseaseTieOne = 1 := rfl
    have hlen : diseaseTieOne.symptoms.length = 2 := rfl
    have hp : (30 : ℚ) ≤ matchPercentage ["s1", "s2"] diseaseTieOne := by
      rw [matchPercentage, hc, hlen]
      norm_num
    simp [admitted, hc, hp]
  have h2 : admitted ["s1", "s2"] diseaseTieTwo = true := by
    have hc : matchCount ["s1", "s2"] diseaseTieTwo = 1 := rfl
    have hlen : diseaseTieTwo.symptoms.length = 2 := rfl
    have hp : (30 : ℚ) ≤ matchPercentage ["s1", "s2"] diseaseTieTwo := by
      rw [matchPercentage, hc, hlen]
      norm_num
    simp [admitted, hc, hp]
  have h3 : admitted ["s1", "s2"] diseaseTop = true := by
    have hc : matchCount ["s1", "s2"] diseaseTop = 2 := rfl
    simp [admitted, hc]
  have hno1 : ¬ rankGE (condition_info ["s1", "s2"] [] diseaseTieTwo)
      (condition_info ["s1", "s2"] [] diseaseTop) := by
    have ha : (condition_info ["s1", "s2"] [] diseaseTieTwo).match_score = 1 := rfl
    have hb : (condition_info ["s1", "s2"] [] diseaseTop).match_score = 2 := rfl
    simp [rankGE, ha, hb]
  have hno2 : ¬ rankGE (condition_info ["s1", "s2"] [] diseaseTieOne)
      (condition_info ["s1", "s2"] [] diseaseTop) := by
    have ha : (condition_info ["s1", "s2"] [] diseaseTieOne).match_score = 1 := rfl
    have hb : (condition_info ["s1", "s2"] [] diseaseTop).match_score = 2 := rfl
    simp [rankGE, ha, hb]
  have hyes : rankGE (condition_info ["s1", "s2"] [] diseaseTieOne)
      (condition_info ["s1", "s2"] [] diseaseTieTwo) := by
    right
    exact ⟨rfl, le_of_eq rfl⟩
  have e0 : List.orderedInsert rankGE (condition_info ["s1", "s2"] [] diseaseTop) []
      = [condition_info ["s1", "s2"] [] diseaseTop] := rfl
  have e1 : List.orderedInsert rankGE (condition_info ["s1", "s2"] [] diseaseTieTwo)
      [condition_info ["s1", "s2"] [] diseaseTop]
      = [condition_info ["s1", "s2"] [] diseaseTop,
          condition_info ["s1", "s2"] [] diseaseTieTwo] := by
    rw [List.orderedInsert, if_neg hno1]
    rfl
  have e2 : List.orderedInsert rankGE (condition_info ["s1", "s2"] [] diseaseTieOne)
      [condition_info ["s1", "s2"] [] diseaseTop,
        condition_info ["s1", "s2"] [] diseaseTieTwo]
      = [condition_info ["s1", "s2"] [] diseaseTop,
          condition_info ["s1", "s2"] [] diseaseTieOne,
          condition_info ["s1", "s2"] [] diseaseTieTwo] := by
    rw [List.orderedInsert, if_neg hno2, List.orderedInsert, if_pos hyes]
  simp only [List.filter_cons, h1, h2, h3, if_pos, List.map]
  simp only [List.insertionSort]
  rw [e0, e1, e2]

/-- C4 witness: on a concrete catalog with two conditions tied at
`(1, 50)` and one at `(2, 100)`, the result is descending and the tied
pair keeps catalog order. -/
theorem C4_ranking_stable_witness :
    (find_condition_by_symptoms
        [("gastrointestinal",
          (⟨some [diseaseTieOne, diseaseTieTwo, diseaseTop], some []⟩ : DeptData))]
        "gastrointestinal" ["s1", "s2"]
      = some [condition_info ["s1", "s2"] [] diseaseTop,
          condition_info ["s1", "s2"] [] diseaseTieOne,
          condition_info ["s1", "s2"] [] diseaseTieTwo]) ∧
    List.Pairwise rankGE [condition_info ["s1", "s2"] [] diseaseTop,
      condition_info ["s1", "s2"] [] diseaseTieOne,
      condition_info ["s1", "s2"] [] diseaseTieTwo] ∧
    ([condition_info ["s1", "s2"] [] diseaseTop,
        condition_info ["s1", "s2"] [] diseaseTieOne,
        condition_info ["s1", "s2"] [] diseaseTieTwo].filter
          (fun r => decide ((r.match_score, r.match_percentage) = ((1 : Nat), (50 : ℚ))))
      = (([diseaseTieOne, diseaseTieTwo, diseaseTop].filter (admitted ["s1", "s2"])).map
          (condition_info ["s1", "s2"] [])).filter
          (fun r => decide ((r.match_score, r.match_percentage) = ((1 : Nat), (50 : ℚ))))) :=
  ⟨find_condition_ranking_eval,
    (C4_ranking_stable
      [("gastrointestinal", ⟨some [diseaseTieOne, diseaseTieTwo, diseaseTop], some []⟩)]
      "gastrointestinal" ["s1", "s2"]
      ⟨some [diseaseTieOne, diseaseTieTwo, diseaseTop], some []⟩
      [diseaseTieOne, diseaseTieTwo, diseaseTop] []
      [condition_info ["s1", "s2"] [] diseaseTop,
        condition_info ["s1", "s2"] [] diseaseTieOne,
        condition_info ["s1", "s2"] [] diseaseTieTwo] rfl rfl rfl
      find_condition_ranking_eval).1,
    (C4_ranking_stable
      [("gastrointestinal", ⟨some [diseaseTieOne, diseaseTieTwo, diseaseTop], some []⟩)]
      "gastrointestinal" ["s1", "s2"]
      ⟨some [diseaseTieOne, diseaseTieTwo, diseaseTop], some []⟩
      [diseaseTieOne, diseaseTieTwo, diseaseTop] []
      [condition_info ["s1", "s2"] [] diseaseTop,
        condition_info ["s1", "s2"] [] diseaseTieOne,
        condition_info ["s1", "s2"] [] diseaseTieTwo] rfl rfl rfl
      find_condition_ranking_eval).2
      ((1 : Nat), (50 : ℚ))⟩

end PHChatbot
